import Mathlib

/-!
Shallow embedding of `src/main.py` (Exosky): the XML constellation loader,
the equatorial-to-Cartesian coordinate transform, and the control flow
around extraction and drawing.  Python floats are modelled as rationals in
the parsing/comparison stage and as reals in the trigonometric stage;
Python exceptions are modelled as `Option`/`Except` results: `none` (or
`Except.error`) marks the point where the Python code raises, and a
function that catches every exception is total, returning `none` for the
caught-and-logged case.
-/

namespace Exosky

/-- Numeric value of a list of decimal digit characters. -/
def digitsVal (l : List Char) : Nat :=
  l.foldl (fun a c => 10 * a + (c.toNat - 48)) 0

/-- Model of Python `float(s)` on a whitespace-free token, restricted to
the plain decimal-numeral grammar `[+|-] digits [. digits]` (with at least
one digit); `none` models the `ValueError` that `float` raises on any
other token. -/
def pyFloat (s : String) : Option ℚ :=
  let cs := s.toList
  let sgn : ℚ := if cs.head? = some '-' then -1 else 1
  let body := if cs.head? = some '-' ∨ cs.head? = some '+' then cs.tail else cs
  let ip := body.takeWhile Char.isDigit
  let rest := body.dropWhile Char.isDigit
  if rest = [] then
    if ip = [] then none else some (sgn * digitsVal ip)
  else
    if rest.head? = some '.' ∧ rest.tail.all Char.isDigit ∧ (ip ≠ [] ∨ rest.tail ≠ []) then
      some (sgn * ((digitsVal ip : ℚ) + (digitsVal rest.tail : ℚ) / 10 ^ rest.tail.length))
    else none

/-- Maximal runs of non-whitespace characters, left to right. -/
def splitWSAux : List Char → List Char → List (List Char)
  | [], acc => if acc = [] then [] else [acc.reverse]
  | c :: r, acc =>
    if c.isWhitespace then
      if acc = [] then splitWSAux r [] else acc.reverse :: splitWSAux r []
    else splitWSAux r (c :: acc)

/-- Model of Python `s.split()` (no separator argument): split on runs of
whitespace, dropping empty pieces. -/
def pySplit (s : String) : List String :=
  (splitWSAux s.toList []).map List.asString

/-- Model of `a, b, c = map(float, s.split())` (main.py lines 138-139):
`none` when some token fails `float` conversion or the token count is not
exactly three (either way Python raises). -/
def parse3 (s : String) : Option (ℚ × ℚ × ℚ) :=
  match (pySplit s).mapM pyFloat with
  | some [a, b, c] => some (a, b, c)
  | _ => none

/-- Line 141 of main.py: `ra_degrees = 15 * (ra_h + ra_m / 60 + ra_s / 3600)`. -/
def ra_degrees (h m s : ℚ) : ℚ := 15 * (h + m / 60 + s / 3600)

/-- Line 142 of main.py: `sign = -1 if dec_d < 0 else 1`. -/
def decSign (d : ℚ) : ℚ := if d < 0 then -1 else 1

/-- Line 143 of main.py:
`dec_degrees = sign * (abs(dec_d) + dec_m / 60 + dec_s / 3600)`. -/
def dec_degrees (d m s : ℚ) : ℚ := decSign d * (|d| + m / 60 + s / 3600)

/-- Python `math.radians(x) = x * pi / 180`. -/
noncomputable def radians (x : ℚ) : ℝ := (x : ℝ) * Real.pi / 180

/-- Lines 145-150 of main.py: the trigonometric stage of
`convert_to_cartesian`, from degree values to the Cartesian triple. -/
noncomputable def cartesian (raDeg decDeg : ℚ) (distance : ℝ) : ℝ × ℝ × ℝ :=
  (distance * Real.cos (radians decDeg) * Real.cos (radians raDeg),
   distance * Real.cos (radians decDeg) * Real.sin (radians raDeg),
   distance * Real.sin (radians decDeg))

/-- Model of `MainWindow.convert_to_cartesian` (main.py lines 136-152): split each
angle string, convert the tokens with `float`, form the degree values and
return the Cartesian triple; `none` models the uncaught exception raised
on a malformed token or a token count other than three. -/
noncomputable def convert_to_cartesian (ra dec : String) (distance : ℝ) :
    Option (ℝ × ℝ × ℝ) :=
  match parse3 ra, parse3 dec with
  | some (h, m, s), some (d, dm, ds) =>
      some (cartesian (ra_degrees h m s) (dec_degrees d dm ds) distance)
  | _, _ => none

/-! ## XML model

An `ElementTree` element is a tag plus its optional text (`element.text`
is `None` in Python for an empty element).  A file on disk either fails
`ET.parse` (`malformed`) or yields a root with a list of child elements.
`Element.find` returns the first direct child with the given tag. -/

structure XMLElem where
  tag : String
  text : Option String
  deriving DecidableEq

inductive XMLFile where
  | malformed
  | root (children : List XMLElem)
  deriving DecidableEq

/-- Model of `root.find(tag)`: first child with the given tag, if any. -/
def findTag (cs : List XMLElem) (t : String) : Option XMLElem :=
  cs.find? fun e => e.tag = t

/-- Model of `MainWindow.get_name_from_xml` (main.py lines 92-104): parse the file
and return the text of its `<name>` element; on a parse failure or a
missing `<name>` tag the function logs and returns `None`.  A present but
empty element also yields `none` (its `.text` is `None`). -/
def get_name_from_xml (f : XMLFile) : Option String :=
  match f with
  | .malformed => none
  | .root cs =>
    match findTag cs "name" with
    | some e => e.text
    | none => none

/-- One entry of the list built by `extract_constellation_data`: the
`name`/`rightascension`/`declination` texts are stored as-is (possibly
`None`), only `distance` has been through `float`. -/
structure Star where
  name : Option String
  rightascension : Option String
  declination : Option String
  distance : ℚ
  deriving DecidableEq

/-- Model of `MainWindow.extract_constellation_data` (main.py lines 112-134): the
whole body is wrapped in `try/except`, so every failure (parse error,
missing tag — an `AttributeError` from `None.text` — or a `distance` text
that is absent or fails `float`) is caught, logged and turned into `None`;
on success the result is the one-element list built from the first
matching child elements. -/
def extract_constellation_data (f : XMLFile) : Option (List Star) :=
  match f with
  | .malformed => none
  | .root cs =>
    match findTag cs "name" with
    | none => none
    | some ne =>
      match findTag cs "rightascension" with
      | none => none
      | some rae =>
        match findTag cs "declination" with
        | none => none
        | some de =>
          match findTag cs "distance" with
          | none => none
          | some diste =>
            match diste.text with
            | none => none
            | some dt =>
              match pyFloat dt with
              | none => none
              | some dv => some [⟨ne.text, rae.text, de.text, dv⟩]

/-- Model of `MainWindow.draw_constellation` (main.py lines 154-164, the loop that
converts each star): no `try/except` here, so a star whose stored
`rightascension`/`declination` is `None` (`None.split()` raises
`AttributeError`) or fails `convert_to_cartesian` makes the whole call
raise, modelled by `Except.error`. -/
noncomputable def draw_constellation (stars : List Star) :
    Except Unit (List (ℝ × ℝ × ℝ)) :=
  stars.mapM fun star =>
    match star.rightascension, star.declination with
    | some ra, some dec =>
      match convert_to_cartesian ra dec (star.distance : ℝ) with
      | some p => Except.ok p
      | none => Except.error ()
    | _, _ => Except.error ()

/-- Model of `MainWindow.show_details_window` (main.py lines 106-110): extract the
data (all extraction failures have already been caught inside
`extract_constellation_data`) and draw it when truthy; an exception from
`draw_constellation` propagates (`Except.error`). -/
noncomputable def show_details_window (f : XMLFile) :
    Except Unit (Option (List (ℝ × ℝ × ℝ))) :=
  match extract_constellation_data f with
  | none => Except.ok none
  | some data =>
    if data = [] then Except.ok none
    else (draw_constellation data).map some

/-- One entry of `self.constelaciones`. -/
structure Constellation where
  name : String
  path : String
  deriving DecidableEq

/-- Python `os.path.join(folder, file)` for a relative file name. -/
def pathJoin (folder file : String) : String := folder ++ "/" ++ file

/-- Model of Python `s.endswith(suffix)`. -/
def pyEndsWith (s suffx : String) : Bool := suffx.toList.isSuffixOf s.toList

/-- The body of the `load_constellations` loop for one directory entry
(main.py lines 57-61): keep the entry when its file name ends in `.xml`
and `get_name_from_xml` is truthy (not `None` and not the empty string). -/
def loadEntry (folder : String) (p : String × XMLFile) : Option Constellation :=
  if pyEndsWith p.1 ".xml" then
    match get_name_from_xml p.2 with
    | some n => if n = "" then none else some ⟨n, pathJoin folder p.1⟩
    | none => none
  else none

/-- Model of `MainWindow.load_constellations` (main.py lines 55-61): scan the
directory listing (a list of file names with their contents) and append
one descriptor per kept entry. -/
def load_constellations (folder : String) (dir : List (String × XMLFile)) :
    List Constellation :=
  dir.filterMap (loadEntry folder)

/-- Model of `MainWindow.generate_buttons` (main.py lines 63-90): one button per
loaded constellation, labelled with its name; modelled as the list of
labels. -/
def generate_buttons (cs : List Constellation) : List String :=
  cs.map fun c => c.name

/-! ## Spec-side definitions

These follow the wording of the specification (for the refinement-style
claims) rather than the code, and are compared with the code-side
functions above. -/

/-- Spec side: a directory entry that should yield a descriptor, per the
amended loader contract: the file name ends in `.xml`, the file parses,
and its first `<name>` element carries nonempty text. -/
def validXML (fname : String) (f : XMLFile) : Bool :=
  pyEndsWith fname ".xml" &&
    match f with
    | .malformed => false
    | .root cs =>
      match findTag cs "name" with
      | some e =>
        match e.text with
        | some t => t ≠ ""
        | none => false
      | none => false

/-- Spec side: a file on which extraction should succeed, per the amended
extraction contract: the file parses, the four tags are all present, and
the `distance` text exists and is numeric (the right-ascension and
declination texts are NOT checked at extraction time). -/
def extractOK (f : XMLFile) : Bool :=
  match f with
  | .malformed => false
  | .root cs =>
    (findTag cs "name").isSome &&
    (findTag cs "rightascension").isSome &&
    (findTag cs "declination").isSome &&
    match findTag cs "distance" with
    | some e =>
      match e.text with
      | some t => (pyFloat t).isSome
      | none => false
    | none => false

/-- A well-formed file whose `rightascension` text is not numeric: every
tag is present and `distance` parses, so extraction succeeds and the bad
field reaches `convert_to_cartesian` inside `draw_constellation`. -/
def badRAFile : XMLFile :=
  .root [⟨"name", some "N"⟩, ⟨"rightascension", some "abc"⟩,
         ⟨"declination", some "0 0 0"⟩, ⟨"distance", some "1"⟩]

/-! ## Helper lemmas -/

/-- Evaluating the loop body of `load_constellations` never keeps an entry
that `validXML` rejects, and keeps every entry it accepts. -/
theorem loadEntry_isSome (folder : String) (p : String × XMLFile) :
    (loadEntry folder p).isSome = validXML p.1 p.2 := by
  rcases p with ⟨fname, f⟩
  unfold loadEntry validXML get_name_from_xml
  cases f with
  | malformed => cases hx : pyEndsWith fname ".xml" <;> simp [hx]
  | root cs =>
    cases hx : pyEndsWith fname ".xml" <;>
      rcases hn : findTag cs "name" with _ | e <;> simp [hx, hn] <;>
      rcases ht : e.text with _ | t <;> simp [ht] <;>
      by_cases h0 : t = "" <;> simp [h0]

/-- A three-token list all of whose tokens pass `pyFloat` maps to a
three-element value list. -/
theorem mapM_pyFloat_three {l : List String} (hlen : l.length = 3)
    (hall : ∀ t ∈ l, (pyFloat t).isSome) :
    ∃ a b c, l.mapM pyFloat = some [a, b, c] := by
  match l, hlen with
  | [x, y, z], _ =>
    obtain ⟨a, ha⟩ := Option.isSome_iff_exists.mp (hall x (by simp))
    obtain ⟨b, hb⟩ := Option.isSome_iff_exists.mp (hall y (by simp))
    obtain ⟨c, hc⟩ := Option.isSome_iff_exists.mp (hall z (by simp))
    exact ⟨a, b, c, by simp [List.mapM, List.mapM.loop, ha, hb, hc]⟩

/-- The loop body keeps an entry with a given descriptor exactly when the
entry is a `.xml` file with a truthy name and matching fields. -/
theorem loadEntry_eq_some (folder : String) (p : String × XMLFile)
    (c : Constellation) :
    loadEntry folder p = some c ↔
      pyEndsWith p.1 ".xml" = true ∧ get_name_from_xml p.2 = some c.name ∧
      c.name ≠ "" ∧ c.path = pathJoin folder p.1 := by
  unfold loadEntry
  cases hx : pyEndsWith p.1 ".xml" <;>
    rcases hn : get_name_from_xml p.2 with _ | n <;>
    simp [hx, hn]
  by_cases h0 : n = "" <;> simp [h0]
  · intro h1 h2
    exact (h2 h1.symm).elim
  · cases c with
    | mk nm pth =>
      simp only [Constellation.mk.injEq]
      constructor
      · rintro ⟨rfl, rfl⟩
        exact ⟨rfl, h0, rfl⟩
      · rintro ⟨rfl, h, rfl⟩
        exact ⟨rfl, rfl⟩

/-- Membership in the loaded list, characterised entry by entry. -/
theorem mem_load_iff (folder : String) (dir : List (String × XMLFile))
    (c : Constellation) :
    c ∈ load_constellations folder dir ↔
      ∃ p ∈ dir, pyEndsWith p.1 ".xml" = true ∧
        get_name_from_xml p.2 = some c.name ∧ c.name ≠ "" ∧
        c.path = pathJoin folder p.1 := by
  unfold load_constellations
  rw [List.mem_filterMap]
  constructor
  · rintro ⟨p, hp, hf⟩
    exact ⟨p, hp, (loadEntry_eq_some folder p c).mp hf⟩
  · rintro ⟨p, hp, h⟩
    exact ⟨p, hp, (loadEntry_eq_some folder p c).mpr h⟩

/-- The loader keeps exactly the `validXML` entries, one descriptor each. -/
theorem load_length (folder : String) (dir : List (String × XMLFile)) :
    (load_constellations folder dir).length =
      dir.countP fun p => validXML p.1 p.2 := by
  unfold load_constellations
  induction dir with
  | nil => simp
  | cons p tl ih =>
    rw [List.filterMap_cons, List.countP_cons]
    cases hv : loadEntry folder p with
    | none =>
      have : validXML p.1 p.2 = false := by
        rw [← loadEntry_isSome folder p, hv]; rfl
      simp [this, ih]
    | some c =>
      have : validXML p.1 p.2 = true := by
        rw [← loadEntry_isSome folder p, hv]; rfl
      simp [this, ih]

/-- Unfolding `radians (ra_degrees h m s)` into the spec's real-valued
right-ascension formula. -/
theorem radians_ra_degrees (h m s : ℚ) :
    radians (ra_degrees h m s) =
      15 * ((h : ℝ) + (m : ℝ) / 60 + (s : ℝ) / 3600) * Real.pi / 180 := by
  unfold radians ra_degrees
  push_cast
  ring

/-- Unfolding `radians (dec_degrees d m s)` into the spec's real-valued
declination formula with its sign factor. -/
theorem radians_dec_degrees (d m s : ℚ) :
    radians (dec_degrees d m s) =
      (if d < 0 then (-1 : ℝ) else 1) *
        (|(d : ℝ)| + (m : ℝ) / 60 + (s : ℝ) / 3600) * Real.pi / 180 := by
  unfold radians dec_degrees decSign
  split_ifs with hd <;> · push_cast; ring

/-! ## Claims -/

/-- C1: for every right-ascension string and declination string whose
three tokens are numeric and every distance `dist`,
`convert_to_cartesian` returns `(x, y, z)` with
`x = dist·cos(dec)·cos(ra)`, `y = dist·cos(dec)·sin(ra)`,
`z = dist·sin(dec)`, where `ra = radians(15·(h + m/60 + s/3600))` and
`dec = radians(sgn·(|d| + m/60 + s/3600))`, with `sgn = -1` iff the
degree token is negative. -/
theorem C1_convert_to_cartesian_formula (ra dec : String) (dist : ℝ)
    (h m s d dm ds : ℚ)
    (hra : parse3 ra = some (h, m, s)) (hdec : parse3 dec = some (d, dm, ds)) :
    convert_to_cartesian ra dec dist =
      some
        (dist *
            Real.cos ((if d < 0 then (-1 : ℝ) else 1) *
              (|(d : ℝ)| + (dm : ℝ) / 60 + (ds : ℝ) / 3600) * Real.pi / 180) *
            Real.cos (15 * ((h : ℝ) + (m : ℝ) / 60 + (s : ℝ) / 3600) * Real.pi / 180),
         dist *
            Real.cos ((if d < 0 then (-1 : ℝ) else 1) *
              (|(d : ℝ)| + (dm : ℝ) / 60 + (ds : ℝ) / 3600) * Real.pi / 180) *
            Real.sin (15 * ((h : ℝ) + (m : ℝ) / 60 + (s : ℝ) / 3600) * Real.pi / 180),
         dist *
            Real.sin ((if d < 0 then (-1 : ℝ) else 1) *
              (|(d : ℝ)| + (dm : ℝ) / 60 + (ds : ℝ) / 3600) * Real.pi / 180)) := by
  simp only [convert_to_cartesian, hra, hdec, cartesian,
    radians_ra_degrees, radians_dec_degrees]

/-- Witness for C1 at `ra = "1 2 3"`, `dec = "-4 30 0"`, `dist = 2`. -/
theorem C1_witness :
    convert_to_cartesian "1 2 3" "-4 30 0" 2 =
      some
        (2 *
            Real.cos ((if (-4 : ℚ) < 0 then (-1 : ℝ) else 1) *
              (|((-4 : ℚ) : ℝ)| + ((30 : ℚ) : ℝ) / 60 + ((0 : ℚ) : ℝ) / 3600) * Real.pi / 180) *
            Real.cos (15 * (((1 : ℚ) : ℝ) + ((2 : ℚ) : ℝ) / 60 + ((3 : ℚ) : ℝ) / 3600) * Real.pi / 180),
         2 *
            Real.cos ((if (-4 : ℚ) < 0 then (-1 : ℝ) else 1) *
              (|((-4 : ℚ) : ℝ)| + ((30 : ℚ) : ℝ) / 60 + ((0 : ℚ) : ℝ) / 3600) * Real.pi / 180) *
            Real.sin (15 * (((1 : ℚ) : ℝ) + ((2 : ℚ) : ℝ) / 60 + ((3 : ℚ) : ℝ) / 3600) * Real.pi / 180),
         2 *
            Real.sin ((if (-4 : ℚ) < 0 then (-1 : ℝ) else 1) *
              (|((-4 : ℚ) : ℝ)| + ((30 : ℚ) : ℝ) / 60 + ((0 : ℚ) : ℝ) / 3600) * Real.pi / 180)) :=
  C1_convert_to_cartesian_formula "1 2 3" "-4 30 0" 2 1 2 3 (-4) 30 0
    (by simp +decide [parse3, pySplit, splitWSAux, pyFloat, digitsVal,
      List.mapM.loop, List.toList_asString])
    (by simp +decide [parse3, pySplit, splitWSAux, pyFloat, digitsVal,
      List.mapM.loop, List.toList_asString])

/-- C3: for every declination string whose degree token is negative, the
sign is preserved through the degree/minute/second composition:
`dec_degrees = -(|d| + m/60 + s/3600)`, and for nonnegative minute and
second tokens the result lies at or below the degree token itself. -/
theorem C3_negative_sign_preserved (dec : String) (d m s : ℚ)
    (hp : parse3 dec = some (d, m, s)) (hneg : d < 0) :
    dec_degrees d m s = -(|d| + m / 60 + s / 3600) ∧
      (0 ≤ m → 0 ≤ s → dec_degrees d m s ≤ d) := by
  have h1 : dec_degrees d m s = -(|d| + m / 60 + s / 3600) := by
    unfold dec_degrees decSign
    rw [if_pos hneg]
    ring
  refine ⟨h1, fun hm hs => ?_⟩
  rw [h1, abs_of_neg hneg]
  have h60 : 0 ≤ m / 60 := by positivity
  have h36 : 0 ≤ s / 3600 := by positivity
  linarith

/-- Witness for C3 at `dec = "-45 0 0"`. -/
theorem C3_witness :
    dec_degrees (-45) 0 0 = -(|(-45 : ℚ)| + 0 / 60 + 0 / 3600) ∧
      (0 ≤ (0 : ℚ) → 0 ≤ (0 : ℚ) → dec_degrees (-45) 0 0 ≤ -45) :=
  C3_negative_sign_preserved "-45 0 0" (-45) 0 0
    (by simp +decide [parse3, pySplit, splitWSAux, pyFloat, digitsVal,
      List.mapM.loop, List.toList_asString])
    (by norm_num)

/-- C6: `convert_to_cartesian` at `RA = "0 0 0"`, `Dec = "0 0 0"`,
`distance = 1` returns exactly `(1, 0, 0)`. -/
theorem C6_origin_star : convert_to_cartesian "0 0 0" "0 0 0" 1 = some (1, 0, 0) := by
  have hp : parse3 "0 0 0" = some (0, 0, 0) := by
    simp +decide [parse3, pySplit, splitWSAux, pyFloat, digitsVal,
      List.mapM.loop, List.toList_asString]
  have h1 : ra_degrees 0 0 0 = 0 := by norm_num [ra_degrees]
  have h2 : dec_degrees 0 0 0 = 0 := by norm_num [dec_degrees, decSign]
  simp only [convert_to_cartesian, hp, h1, h2]
  norm_num [cartesian, radians]

/-- C8: on any pair of angle strings of exactly three numeric tokens each
and any distance, `convert_to_cartesian` reaches no error state (it
returns a value), and equal arguments give equal results. -/
theorem C8_no_error_wellformed (ra dec : String) (dist : ℝ)
    (hra : (pySplit ra).length = 3 ∧ ∀ t ∈ pySplit ra, (pyFloat t).isSome)
    (hdec : (pySplit dec).length = 3 ∧ ∀ t ∈ pySplit dec, (pyFloat t).isSome) :
    (∃ p, convert_to_cartesian ra dec dist = some p) ∧
      convert_to_cartesian ra dec dist = convert_to_cartesian ra dec dist := by
  obtain ⟨a, b, c, h1⟩ := mapM_pyFloat_three hra.1 hra.2
  obtain ⟨d, e, f, h2⟩ := mapM_pyFloat_three hdec.1 hdec.2
  refine ⟨⟨cartesian (ra_degrees a b c) (dec_degrees d e f) dist, ?_⟩, rfl⟩
  simp only [convert_to_cartesian, parse3, h1, h2]

/-- Witness for C8 at `ra = "1 2 3"`, `dec = "4 5 6"`, `dist = 2`. -/
theorem C8_witness :
    (∃ p, convert_to_cartesian "1 2 3" "4 5 6" 2 = some p) ∧
      convert_to_cartesian "1 2 3" "4 5 6" 2 = convert_to_cartesian "1 2 3" "4 5 6" 2 :=
  C8_no_error_wellformed "1 2 3" "4 5 6" 2
    (by constructor <;>
      simp +decide [pySplit, splitWSAux, pyFloat, digitsVal, List.toList_asString])
    (by constructor <;>
      simp +decide [pySplit, splitWSAux, pyFloat, digitsVal, List.toList_asString])

/-- C9: a negative-zero degree token such as in `"-0 30 0"` loses its
written minus sign: the parsed value is plain zero, the computed sign
factor is `+1`, and `dec_degrees` comes out as `+(0 + m/60 + s/3600)`. -/
theorem C9_negative_zero_dropped :
    pyFloat "-0" = some 0 ∧ parse3 "-0 30 0" = some (0, 30, 0) ∧
      decSign 0 = 1 ∧ ∀ m s : ℚ, dec_degrees 0 m s = m / 60 + s / 3600 := by
  refine ⟨by simp +decide [pyFloat, digitsVal],
    by simp +decide [parse3, pySplit, splitWSAux, pyFloat, digitsVal,
      List.mapM.loop, List.toList_asString],
    by norm_num [decSign], fun m s => ?_⟩
  simp [dec_degrees, decSign]

/-- C2 counterexample: `badRAFile` has all four tags and a numeric
`distance`, but its `rightascension` text `"abc"` is not numeric; nothing
catches the resulting failure, so it escapes `show_details_window`. -/
theorem C2_counterexample :
    parse3 "abc" = none ∧ show_details_window badRAFile = Except.error () := by
  have hra : parse3 "abc" = none := by
    simp +decide [parse3, pySplit, splitWSAux, pyFloat, digitsVal,
      List.mapM.loop, List.toList_asString]
  have hx : extract_constellation_data badRAFile =
      some [⟨some "N", some "abc", some "0 0 0", 1⟩] := by
    simp +decide [extract_constellation_data, badRAFile, findTag, pyFloat, digitsVal]
  refine ⟨hra, ?_⟩
  simp [show_details_window, hx, draw_constellation, convert_to_cartesian, hra,
    List.mapM, List.mapM.loop, Except.map]

/-- C2 (amended): every failure while opening or extracting a file —
parse error, missing tag, bad `distance` — is caught inside
`extract_constellation_data`, and `show_details_window` then returns
normally with nothing drawn. -/
theorem C2_extraction_failures_caught (f : XMLFile)
    (h : extract_constellation_data f = none) :
    show_details_window f = Except.ok none := by
  simp [show_details_window, h]

/-- Witness for the amended C2 at a file that fails `ET.parse`. -/
theorem C2_witness : show_details_window XMLFile.malformed = Except.ok none :=
  C2_extraction_failures_caught XMLFile.malformed rfl

/-- C4 counterexample: a `.xml` file that contains a `<name>` element
(with empty text) yields no descriptor, so the claim's "every file whose
name ends in `.xml` and that contains a `<name>` element" is too broad. -/
theorem C4_counterexample :
    pyEndsWith "a.xml" ".xml" = true ∧
      findTag [⟨"name", some ""⟩] "name" = some ⟨"name", some ""⟩ ∧
      load_constellations "BaseDatos/systems"
        [("a.xml", XMLFile.root [⟨"name", some ""⟩])] = [] := by
  refine ⟨by simp +decide [pyEndsWith], by simp +decide [findTag], ?_⟩
  simp +decide [load_constellations, loadEntry, get_name_from_xml, findTag, pyEndsWith]

/-- C4 (amended): the loader yields exactly one descriptor per `.xml`
file whose name lookup is truthy (the file parses and its first `<name>`
element has nonempty text); all other files — unparsable, tagless, or
with an empty name — are skipped without affecting the rest. -/
theorem C4_loader_contract (folder : String) (dir : List (String × XMLFile)) :
    (∀ c, c ∈ load_constellations folder dir ↔
        ∃ p ∈ dir, pyEndsWith p.1 ".xml" = true ∧
          get_name_from_xml p.2 = some c.name ∧ c.name ≠ "" ∧
          c.path = pathJoin folder p.1) ∧
      (load_constellations folder dir).length =
        dir.countP fun p => validXML p.1 p.2 :=
  ⟨fun c => mem_load_iff folder dir c, load_length folder dir⟩

/-- C5 counterexample: extraction does not fail on a non-numeric
`rightascension`: the value `"abc"` is stored verbatim and the call
returns a star list instead of `None`. -/
theorem C5_counterexample :
    pyFloat "abc" = none ∧
      extract_constellation_data badRAFile =
        some [⟨some "N", some "abc", some "0 0 0", 1⟩] := by
  constructor
  · simp +decide [pyFloat, digitsVal]
  · simp +decide [extract_constellation_data, badRAFile, findTag, pyFloat, digitsVal]

/-- C5 (amended): `extract_constellation_data` reports failure (returns
`None`, never raises) exactly when the file fails to parse, one of the
four tags is absent, or the `distance` text is absent or non-numeric; the
`rightascension` and `declination` texts are not checked at extraction
time. -/
theorem C5_extraction_failure_characterization (f : XMLFile) :
    extract_constellation_data f = none ↔ extractOK f = false := by
  cases f with
  | malformed => simp [extract_constellation_data, extractOK]
  | root cs =>
    simp only [extract_constellation_data, extractOK]
    rcases hn : findTag cs "name" with _ | ne <;> simp [hn] <;>
      rcases hr : findTag cs "rightascension" with _ | rae <;> simp [hr] <;>
      rcases hd : findTag cs "declination" with _ | de <;> simp [hd] <;>
      rcases hi : findTag cs "distance" with _ | diste <;> simp [hi] <;>
      rcases ht : diste.text with _ | dt <;> simp [ht] <;>
      rcases hq : pyFloat dt with _ | v <;> simp [hq]

/-- C7: a directory with no `.xml` file yielding a truthy name leaves the
selection list empty and produces zero buttons. -/
theorem C7_empty_selection (folder : String) (dir : List (String × XMLFile))
    (h : ∀ p ∈ dir, pyEndsWith p.1 ".xml" = true →
        get_name_from_xml p.2 = none ∨ get_name_from_xml p.2 = some "") :
    load_constellations folder dir = [] ∧
      generate_buttons (load_constellations folder dir) = [] := by
  have hnil : load_constellations folder dir = [] := by
    unfold load_constellations
    rw [List.filterMap_eq_nil]
    intro p hp
    unfold loadEntry
    cases hx : pyEndsWith p.1 ".xml"
    · simp
    · rcases h p hp hx with hnone | hempty
      · simp [hnone]
      · simp [hempty]
  exact ⟨hnil, by rw [hnil]; rfl⟩

/-- A directory with a non-XML file, an unparsable XML file and an XML
file whose name element is empty: no entry is valid. -/
def sampleDir : List (String × XMLFile) :=
  [("a.txt", XMLFile.malformed), ("b.xml", XMLFile.malformed),
   ("c.xml", XMLFile.root [⟨"name", none⟩])]

/-- Witness for C7 on `sampleDir`. -/
theorem C7_witness :
    load_constellations "BaseDatos/systems" sampleDir = [] ∧
      generate_buttons (load_constellations "BaseDatos/systems" sampleDir) = [] :=
  C7_empty_selection "BaseDatos/systems" sampleDir
    (by simp +decide [sampleDir, pyEndsWith, get_name_from_xml, findTag])

/-- C10: whenever extraction succeeds, the result is a list of exactly one
star, built from the first `<name>`, `<rightascension>`, `<declination>`
and `<distance>` children of the root, later duplicates being ignored. -/
theorem C10_single_star_from_first (f : XMLFile) (l : List Star)
    (h : extract_constellation_data f = some l) :
    l.length = 1 ∧
      ∃ cs ne rae de diste dt dv, f = XMLFile.root cs ∧
        findTag cs "name" = some ne ∧
        findTag cs "rightascension" = some rae ∧
        findTag cs "declination" = some de ∧
        findTag cs "distance" = some diste ∧
        diste.text = some dt ∧ pyFloat dt = some dv ∧
        l = [⟨ne.text, rae.text, de.text, dv⟩] := by
  cases f with
  | malformed => simp [extract_constellation_data] at h
  | root cs =>
    simp only [extract_constellation_data] at h
    rcases hn : findTag cs "name" with _ | ne <;> simp [hn] at h
    rcases hr : findTag cs "rightascension" with _ | rae <;> simp [hr] at h
    rcases hd : findTag cs "declination" with _ | de <;> simp [hd] at h
    rcases hi : findTag cs "distance" with _ | diste <;> simp [hi] at h
    rcases ht : diste.text with _ | dt <;> simp [ht] at h
    rcases hq : pyFloat dt with _ | dv <;> simp [hq] at h
    subst h
    exact ⟨rfl, cs, ne, rae, de, diste, dt, dv, rfl, hn, hr, hd, hi, ht, hq, rfl⟩

/-- A file with two `<name>` elements; only the first is used. -/
def dupNameFile : XMLFile :=
  .root [⟨"name", some "A"⟩, ⟨"name", some "B"⟩,
         ⟨"rightascension", some "1 2 3"⟩, ⟨"declination", some "4 5 6"⟩,
         ⟨"distance", some "2"⟩]

/-- The single star extracted from `dupNameFile`. -/
def dupNameStar : Star := ⟨some "A", some "1 2 3", some "4 5 6", 2⟩

/-- Witness for C10 on `dupNameFile`. -/
theorem C10_witness :
    ([dupNameStar] : List Star).length = 1 ∧
      ∃ cs ne rae de diste dt dv, dupNameFile = XMLFile.root cs ∧
        findTag cs "name" = some ne ∧
        findTag cs "rightascension" = some rae ∧
        findTag cs "declination" = some de ∧
        findTag cs "distance" = some diste ∧
        diste.text = some dt ∧ pyFloat dt = some dv ∧
        [dupNameStar] = [⟨ne.text, rae.text, de.text, dv⟩] :=
  C10_single_star_from_first dupNameFile [dupNameStar]
    (by simp +decide [extract_constellation_data, dupNameFile, dupNameStar,
      findTag, pyFloat, digitsVal])

end Exosky
